import Mathlib

/-!
Shallow embedding of `src/apps/worker/worker.py` (bilibili-online worker).

Python data values that flow through the worker are modelled by `PyVal`
(strings are modelled over their character content; Unicode-only quirks of
`str.isdigit` are outside the model, which treats a digit as an ASCII
decimal digit).  Dictionaries are association lists looked up by first key
occurrence; the JSON layer never produces duplicate keys.  Network effects
are passed in explicitly: each fetch outcome is a parameter, and the calls
actually issued are returned as a trace.
-/

/-- A Python value as seen by the worker: `None`, `bool`, `int`, `float`
(modelled as a rational, i.e. a finite float), `str`, `list`, `dict`. -/
inductive PyVal where
  | none : PyVal
  | bool (b : Bool) : PyVal
  | int (n : Int) : PyVal
  | float (q : Rat) : PyVal
  | str (s : String) : PyVal
  | list (xs : List PyVal) : PyVal
  | dict (d : List (String × PyVal)) : PyVal
deriving Repr

/-- A Python dict body: association list of string keys to values. -/
abbrev PyDict := List (String × PyVal)

/-- Python `d.get(k)`: the first value bound to `k`, `None` when absent. -/
def PyDict.get (d : PyDict) (k : String) : PyVal :=
  match d.lookup k with
  | Option.none => PyVal.none
  | Option.some v => v

/-- Python `isinstance(v, dict)`. -/
def PyVal.isDict : PyVal → Bool
  | .dict _ => true
  | _ => false

/-- Python `isinstance(v, str)`. -/
def PyVal.isStr : PyVal → Bool
  | .str _ => true
  | _ => false

/-- Python truthiness of a value (`bool(v)`). -/
def PyVal.truthy : PyVal → Bool
  | .none => false
  | .bool b => b
  | .int n => n != 0
  | .float q => q != 0
  | .str s => s != ""
  | .list xs => !xs.isEmpty
  | .dict d => !d.isEmpty

/-- Python `a or b`. -/
def pyOr (a b : PyVal) : PyVal :=
  if a.truthy then a else b

/-- Python `v == 0` for the JSON status-code comparison (`bool` is an
`int` subclass in Python, and `0.0 == 0`). -/
def pyEqZero : PyVal → Bool
  | .int n => n == 0
  | .bool b => b == false
  | .float q => q == 0
  | _ => false

/-- Whitespace characters removed by Python `str.strip()` (ASCII range). -/
def pyIsSpace (c : Char) : Bool :=
  c = ' ' || c = '\t' || c = '\n' || c = '\r' || c = Char.ofNat 11 || c = Char.ofNat 12

/-- Python `s.strip()`. -/
def pyStrip (s : String) : String :=
  String.mk (((s.toList.dropWhile pyIsSpace).reverse.dropWhile pyIsSpace).reverse)

/-- Python `s.isdigit()` over the ASCII decimal digits: non-empty and all
characters in `0`..`9`. -/
def pyIsDigit (s : String) : Bool :=
  !s.toList.isEmpty && s.toList.all Char.isDigit

/-- Python `int(s)` on a string of decimal digits. -/
def pyParseDigits (s : String) : Int :=
  (s.toList.foldl (fun a c => a * 10 + (c.toNat - 48)) 0 : Nat)

/-- Python `int(f)`: truncation toward zero. -/
def ratTrunc (q : Rat) : Int :=
  if 0 ≤ q then q.floor else q.ceil

/-- Embedding of `_safe_int` (worker.py lines 70-84): `None` stays null,
`bool` coerces to 0/1, `int` passes through, `float` truncates, a string
is stripped and parsed when the stripped form is all decimal digits, and
every other value yields null. -/
def safe_int : PyVal → Option Int
  | .none => Option.none
  | .bool b => Option.some (if b then 1 else 0)
  | .int n => Option.some n
  | .float q => Option.some (ratTrunc q)
  | .str s =>
      let t := pyStrip s
      if pyIsDigit t then Option.some (pyParseDigits t) else Option.none
  | .list _ => Option.none
  | .dict _ => Option.none

/-- Written from the spec's words, for comparison with `safe_int`: the
spec accepts a string only when it consists solely of decimal digits (no
mention of stripping surrounding whitespace). -/
def specDigitString (s : String) : Bool :=
  !s.toList.isEmpty && s.toList.all Char.isDigit

example : safe_int (PyVal.str " 42 ") = Option.some 42 := by decide
example : safe_int (PyVal.str "42") = Option.some 42 := by decide
example : safe_int (PyVal.bool true) = Option.some 1 := by decide
example : safe_int (PyVal.float (mkRat 5 2)) = Option.some 2 := by decide
example : safe_int (PyVal.float (mkRat (-5) 2)) = Option.some (-2) := by decide
example : safe_int (PyVal.str "4a") = Option.none := by decide

/-! ## Retrying fetcher (`_get_json_with_retry`, worker.py lines 152-179) -/

/-- Outcome of one raw GET-plus-decode attempt against an endpoint:
either the decoded JSON value, or an exception (network error, non-2xx
status, decode failure) described by its message. -/
inductive AttemptOutcome where
  | ok (v : PyVal) : AttemptOutcome
  | exn (cause : String) : AttemptOutcome

/-- What one iteration of the retry loop body does with an attempt:
a decoded dict is returned, while an exception or a decoded non-dict body
(`raise ValueError("response is not a json object")`) is a failure
with a cause. -/
def attemptEval : AttemptOutcome → PyVal ⊕ String
  | .ok v => if v.isDict then Sum.inl v else Sum.inr "response is not a json object"
  | .exn c => Sum.inr c

/-- Result of the whole retry loop.  `unboundLocal` is the Python
`UnboundLocalError` raised by the final `raise RuntimeError(f"... {last_err}")`
when the loop body never ran and `last_err` was declared but never
assigned. -/
inductive RetryResult where
  | success (v : PyVal) : RetryResult
  | exhausted (lastCause : String) : RetryResult
  | unboundLocal : RetryResult

/-- The `for attempt in range(retries)` loop of `_get_json_with_retry`:
`attempt` is the current index, `fuel` the remaining iterations,
`lastErr` the current value of `last_err` (`Option.none` = never assigned).
Returns the result together with the list of backoff sleeps performed,
in order; each failed attempt, the last one included, sleeps
`base * 2 ^ attempt + jitter attempt` before the loop continues. -/
def retryGo (outcomes : Nat → AttemptOutcome) (jitter : Nat → Rat) (base : Rat) :
    Nat → Nat → Option String → RetryResult × List Rat
  | _, 0, lastErr =>
      (match lastErr with
       | Option.none => RetryResult.unboundLocal
       | Option.some c => RetryResult.exhausted c, [])
  | attempt, fuel + 1, _ =>
      match attemptEval (outcomes attempt) with
      | Sum.inl v => (RetryResult.success v, [])
      | Sum.inr c =>
          let w := base * 2 ^ attempt + jitter attempt
          let rest := retryGo outcomes jitter base (attempt + 1) fuel (Option.some c)
          (rest.1, w :: rest.2)

/-- Embedding of `_get_json_with_retry`: run the loop from attempt 0 with
`last_err` unassigned.  The endpoint's behaviour is the `outcomes`
function (outcome of the i-th attempt), the random jitter draws are the
`jitter` function. -/
def get_json_with_retry (outcomes : Nat → AttemptOutcome) (jitter : Nat → Rat)
    (retries : Nat) (base : Rat) : RetryResult × List Rat :=
  retryGo outcomes jitter base 0 retries Option.none

example :
    (get_json_with_retry (fun _ => AttemptOutcome.exn "boom") (fun _ => 0) 3 (mkRat 3 5)).1
      = RetryResult.exhausted "boom" := rfl

example :
    (get_json_with_retry (fun _ => AttemptOutcome.exn "boom") (fun _ => 0) 3 (mkRat 3 5)).2.length
      = 3 := rfl

example :
    (get_json_with_retry (fun _ => AttemptOutcome.ok (PyVal.dict [])) (fun _ => 0) 3 (mkRat 3 5))
      = (RetryResult.success (PyVal.dict []), []) := rfl

example :
    (get_json_with_retry (fun _ => AttemptOutcome.ok (PyVal.list [])) (fun _ => 0) 1 (mkRat 3 5)).1
      = RetryResult.exhausted "response is not a json object" := rfl

example :
    (get_json_with_retry (fun _ => AttemptOutcome.ok (PyVal.dict [])) (fun _ => 0) 0 (mkRat 3 5))
      = (RetryResult.unboundLocal, []) := rfl

/-! ## Item enricher (`enrich_video`, worker.py lines 202-281) -/

/-- Python `isinstance(v, int)`: true for `int` and for `bool`
(`bool` is a subclass of `int` in Python), false for `float`. -/
def pyIsInstInt : PyVal → Bool
  | .int _ => true
  | .bool _ => true
  | _ => false

/-- Integer value of an `int`-instance (`bool` coerces to 0/1). -/
def pyToInt : PyVal → Int
  | .int n => n
  | .bool b => if b then 1 else 0
  | _ => 0

/-- Lookup `v.get(k)` on a value known to be a dict. -/
def pyValGet (v : PyVal) (k : String) : PyVal :=
  match v with
  | .dict d => PyDict.get d k
  | _ => PyVal.none

/-- Abstraction of `datetime.fromtimestamp(t).strftime("%Y-%m-%d %H:%M:%S")`.
The calendar rendering depends on the host timezone and is outside the
model; the timestamp is kept injectively so that the fallback precedence
on `pubdate` stays observable. -/
def formatTimestamp (t : Int) : String :=
  "ts:" ++ toString t

/-- The dict returned by `enrich_video` (worker.py lines 271-281). -/
structure EnrichedItem where
  bvid : String
  title : String
  pic : String
  owner : PyVal
  online_total : PyVal
  online_count : Option Int
  view : Option Int
  danmaku : Option Int
  pubdate : String
deriving Repr

/-- One outbound HTTP fetch issued by the enricher. -/
inductive NetCall where
  | viewCall (bvid : String) : NetCall
  | onlineCall (bvid : String) (cid : Int) : NetCall
deriving Repr

/-- Outcomes of the two fetches the enricher may issue, each already run
through the retry wrapper: `Except.error` is the exhausted-retries
`RuntimeError`, `Except.ok` the decoded JSON value. -/
structure NetEnv where
  viewResult : Except String PyVal
  onlineResult : Except String PyVal

/-- The `view_data` computation (worker.py line 219):
`(view_raw.get("data") or {}) if isinstance(view_raw, dict) else {}`. -/
def resolve_view_data (view_raw : PyVal) : PyVal :=
  if view_raw.isDict then pyOr (pyValGet view_raw "data") (PyVal.dict [])
  else PyVal.dict []

/-- Title resolution (worker.py lines 223-225): the raw entry's title when
it is a string, else the detail data's title, else the synthesized
placeholder built from the identifier. -/
def resolve_title (raw_item : PyDict) (vd : PyDict) (bvid : String) : String :=
  match (if (raw_item.get "title").isStr then raw_item.get "title"
         else PyDict.get vd "title") with
  | PyVal.str t => t
  | _ => "(untitled) " ++ bvid

/-- Owner resolution (worker.py line 228): the detail data's owner when it
is a dict, else the raw entry's owner. -/
def resolve_owner (raw_item : PyDict) (vd : PyDict) : PyVal :=
  if (PyDict.get vd "owner").isDict then PyDict.get vd "owner"
  else raw_item.get "owner"

/-- Stat-block resolution (worker.py line 231): the detail data's stat
when it is a dict, else the raw entry's stat. -/
def resolve_stat (raw_item : PyDict) (vd : PyDict) : PyVal :=
  if (PyDict.get vd "stat").isDict then PyDict.get vd "stat"
  else raw_item.get "stat"

/-- View count out of the resolved stat block (worker.py lines 232-236). -/
def stat_view (stat : PyVal) : Option Int :=
  match stat with
  | PyVal.dict sd => safe_int (PyDict.get sd "view")
  | _ => Option.none

/-- Danmaku count out of the resolved stat block (worker.py lines 232-236). -/
def stat_danmaku (stat : PyVal) : Option Int :=
  match stat with
  | PyVal.dict sd => safe_int (PyDict.get sd "danmaku")
  | _ => Option.none

/-- Cover-image resolution (worker.py lines 239-243): the raw entry's pic
when it is a non-empty string, else the detail data's pic when a string,
else the empty string. -/
def resolve_pic (raw_item : PyDict) (vd : PyDict) : String :=
  let pic0 := raw_item.get "pic"
  let pic1 := if pic0.isStr && pic0.truthy then pic0 else PyDict.get vd "pic"
  match pic1 with
  | PyVal.str p => p
  | _ => ""

/-- Publish-time resolution (worker.py lines 246-250): the detail data's
pubdate when an int-instance, else the raw entry's pubdate when an
int-instance, else epoch zero. -/
def resolve_pubdate (raw_item : PyDict) (vd : PyDict) : Int :=
  let pd0 := PyDict.get vd "pubdate"
  let pd1 := if pyIsInstInt pd0 then pd0 else raw_item.get "pubdate"
  if pyIsInstInt pd1 then pyToInt pd1 else 0

/-- Embedding of `enrich_video`.  Input is the raw catalog entry (a dict,
as guaranteed by the `isinstance(it, dict)` filter in `build_payload`);
output is the result (`Except.error` = the exception the Python coroutine
raises) together with the network calls issued, in order.  The
`"AttributeError"` branches are the Python `.get` calls on a non-dict
(`view_data` or `online_raw` not a dict). -/
def enrich_video (env : NetEnv) (raw_item : PyDict) :
    Except String EnrichedItem × List NetCall :=
  match raw_item.get "bvid" with
  | PyVal.str bvid =>
    if bvid = "" then (Except.error "missing bvid", [])
    else
      match env.viewResult with
      | Except.error e => (Except.error e, [NetCall.viewCall bvid])
      | Except.ok view_raw =>
        match resolve_view_data view_raw with
        | PyVal.dict vd =>
          let cid := safe_int (PyDict.get vd "cid")
          let title := resolve_title raw_item vd bvid
          let owner := resolve_owner raw_item vd
          let stat := resolve_stat raw_item vd
          let view := stat_view stat
          let danmaku := stat_danmaku stat
          let pic := resolve_pic raw_item vd
          let pubdate := formatTimestamp (resolve_pubdate raw_item vd)
          let onlinePart : Except String (PyVal × Option Int) × List NetCall :=
            match cid with
            | Option.some c =>
              if c ≠ 0 then
                match env.onlineResult with
                | Except.error e => (Except.error e, [NetCall.onlineCall bvid c])
                | Except.ok online_raw =>
                  match online_raw with
                  | PyVal.dict od =>
                    (Except.ok
                      (if pyEqZero (PyDict.get od "code") then
                        match pyOr (PyDict.get od "data") (PyVal.dict []) with
                        | PyVal.dict dd =>
                            (PyDict.get dd "total", safe_int (PyDict.get dd "count"))
                        | _ => (PyVal.none, Option.none)
                      else (PyVal.none, Option.none)),
                     [NetCall.onlineCall bvid c])
                  | _ => (Except.error "AttributeError", [NetCall.onlineCall bvid c])
              else (Except.ok (PyVal.none, Option.none), [])
            | Option.none => (Except.ok (PyVal.none, Option.none), [])
          match onlinePart.1 with
          | Except.error e => (Except.error e, NetCall.viewCall bvid :: onlinePart.2)
          | Except.ok p =>
            (Except.ok
              { bvid := bvid, title := title, pic := pic, owner := owner,
                online_total := p.1, online_count := p.2,
                view := view, danmaku := danmaku, pubdate := pubdate },
             NetCall.viewCall bvid :: onlinePart.2)
        | _ => (Except.error "AttributeError", [NetCall.viewCall bvid])
  | _ => (Except.error "missing bvid", [])

/-! ## Aggregator (`build_payload`, worker.py lines 284-336) -/

/-- Embedding of the local `sort_key` (worker.py lines 330-333): a pair
compared lexicographically, group 0 for a non-null non-negative online
count (second component minus the count, so higher counts first), group 1
otherwise. -/
def sort_key (x : EnrichedItem) : Int × Int :=
  let o : Int := match x.online_count with
    | Option.some n => n
    | Option.none => -1
  (if 0 ≤ o then 0 else 1, -(if 0 ≤ o then o else 0))

/-- Python tuple comparison `sort_key a <= sort_key b` (lexicographic). -/
def keyLe (p q : Int × Int) : Bool :=
  p.1 < q.1 || (p.1 == q.1 && p.2 ≤ q.2)

/-- Order in which `enriched.sort(key=sort_key)` arranges two items. -/
def itemLe (a b : EnrichedItem) : Prop :=
  keyLe (sort_key a) (sort_key b) = true

instance : DecidableRel itemLe := fun a b => by
  unfold itemLe; infer_instance

instance : IsTotal EnrichedItem itemLe := by
  constructor
  intro a b
  simp only [itemLe, keyLe, Bool.or_eq_true, decide_eq_true_eq, Bool.and_eq_true, beq_iff_eq]
  omega

instance : IsTrans EnrichedItem itemLe := by
  constructor
  intro a b c
  simp only [itemLe, keyLe, Bool.or_eq_true, decide_eq_true_eq, Bool.and_eq_true, beq_iff_eq]
  omega

/-- The fan-out and collection loop of `build_payload` (lines 310-327):
non-dict catalog entries are skipped before fan-out, each remaining entry
is enriched with its own network outcomes, and a failed enrichment is
caught and excluded.  The `as_completed` completion order is modelled as
submission order; it only affects the relative order of sort-key ties. -/
def collectEnriched (inputs : List (NetEnv × PyVal)) : List EnrichedItem :=
  inputs.filterMap fun p =>
    match p.2 with
    | PyVal.dict d => (enrich_video p.1 d).1.toOption
    | _ => Option.none

/-- Embedding of the item list of the payload built by `build_payload`:
collect the successful enrichments, then `enriched.sort(key=sort_key)`
(a stable sort by `sort_key`, modelled by insertion sort, which is also
stable). -/
def build_payload_items (inputs : List (NetEnv × PyVal)) : List EnrichedItem :=
  List.insertionSort itemLe (collectEnriched inputs)

/-! ## Snapshot writer and scheduler (worker.py lines 50-58 and 339-377) -/

/-- The slice of the filesystem the writer touches: the content at the
output path and at the temporary path `path + ".tmp"` (`Option.none` =
file absent). -/
structure FS where
  target : Option String
  tmp : Option String
deriving Repr, DecidableEq

/-- One observable filesystem action of `_atomic_write_json`. -/
inductive WriteStep where
  | makedirs : WriteStep
  | openTmp : WriteStep
  | writeChunk (s : String) : WriteStep
  | fsyncTmp : WriteStep
  | renameTmp : WriteStep
deriving Repr, DecidableEq

/-- Effect of one step on the filesystem: `makedirs` and `fsync` change no
file content, opening the temp file truncates it, a write appends to it,
and `os.replace` atomically moves the temp file onto the target. -/
def applyStep (fs : FS) : WriteStep → FS
  | WriteStep.makedirs => fs
  | WriteStep.openTmp => { fs with tmp := Option.some "" }
  | WriteStep.writeChunk s => { fs with tmp := Option.some ((fs.tmp.getD "") ++ s) }
  | WriteStep.fsyncTmp => fs
  | WriteStep.renameTmp => { target := fs.tmp, tmp := Option.none }

/-- Embedding of `_atomic_write_json` as its step sequence: ensure the
directory, create and truncate the temp file, stream the serialized
payload into it (in one or more chunks whose concatenation is the full
document), fsync, then atomically rename. -/
def atomic_write_json (chunks : List String) : List WriteStep :=
  [WriteStep.makedirs, WriteStep.openTmp]
    ++ chunks.map WriteStep.writeChunk
    ++ [WriteStep.fsyncTmp, WriteStep.renameTmp]

/-- Run a list of filesystem steps. -/
def runSteps (fs : FS) (steps : List WriteStep) : FS :=
  steps.foldl applyStep fs

/-- State of the snapshot files after `_atomic_write_json` has executed
only the first `k` of its steps (an interruption point anywhere in the
write). -/
def write_interrupted (fs : FS) (chunks : List String) (k : Nat) : FS :=
  runSteps fs ((atomic_write_json chunks).take k)

/-- Embedding of `run_once` (worker.py lines 339-351): the cycle either
fails at some stage before the write (catalog fetch or enrichment raised;
the exception is caught and only logged) or produces a serialized payload
that is written atomically. -/
def run_once (fs : FS) (cycle : Except String (List String)) : FS :=
  match cycle with
  | Except.error _ => fs
  | Except.ok chunks => runSteps fs (atomic_write_json chunks)

/-- Embedding of the scheduler loop (worker.py lines 368-375): each cycle
outcome is processed by `run_once` in turn; a failed cycle does not stop
the loop. -/
def scheduler_cycles (fs : FS) : List (Except String (List String)) → FS
  | [] => fs
  | c :: rest => scheduler_cycles (run_once fs c) rest

/-! ## Supporting lemmas -/

/-- The complete serialized document: concatenation of the written chunks. -/
def joinChunks (chunks : List String) : String :=
  chunks.foldl (fun a c => a ++ c) ""

lemma applyStep_target_of_ne (fs : FS) (s : WriteStep) (h : s ≠ WriteStep.renameTmp) :
    (applyStep fs s).target = fs.target := by
  cases s <;> simp_all [applyStep]

lemma runSteps_target_of_not_mem :
    ∀ (l : List WriteStep) (fs : FS), WriteStep.renameTmp ∉ l →
      (runSteps fs l).target = fs.target
  | [], _, _ => rfl
  | s :: l, fs, h => by
    have hs : s ≠ WriteStep.renameTmp := fun he => h (he ▸ List.mem_cons_self s l)
    have hl : WriteStep.renameTmp ∉ l := fun hm => h (List.mem_cons_of_mem s hm)
    calc (runSteps fs (s :: l)).target
        = (runSteps (applyStep fs s) l).target := rfl
      _ = (applyStep fs s).target := runSteps_target_of_not_mem l _ hl
      _ = fs.target := applyStep_target_of_ne fs s hs

lemma runSteps_writeChunks (chunks : List String) :
    ∀ (t : Option String) (s0 : String),
      runSteps ⟨t, Option.some s0⟩ (chunks.map WriteStep.writeChunk)
        = ⟨t, Option.some (chunks.foldl (fun a c => a ++ c) s0)⟩ := by
  induction chunks with
  | nil => intro t s0; rfl
  | cons c cs ih =>
      intro t s0
      show runSteps (applyStep ⟨t, Option.some s0⟩ (WriteStep.writeChunk c)) _ = _
      simpa [applyStep] using ih t (s0 ++ c)

lemma runSteps_atomic (fs : FS) (chunks : List String) :
    runSteps fs (atomic_write_json chunks)
      = ⟨Option.some (joinChunks chunks), Option.none⟩ := by
  have h2 : runSteps fs [WriteStep.makedirs, WriteStep.openTmp]
      = ⟨fs.target, Option.some ""⟩ := rfl
  calc runSteps fs (atomic_write_json chunks)
      = runSteps (runSteps fs [WriteStep.makedirs, WriteStep.openTmp])
          (chunks.map WriteStep.writeChunk ++ [WriteStep.fsyncTmp, WriteStep.renameTmp]) := by
        simp [runSteps, atomic_write_json, List.foldl_append]
    _ = runSteps (runSteps ⟨fs.target, Option.some ""⟩ (chunks.map WriteStep.writeChunk))
          [WriteStep.fsyncTmp, WriteStep.renameTmp] := by
        rw [h2]; simp [runSteps, List.foldl_append]
    _ = ⟨Option.some (joinChunks chunks), Option.none⟩ := by
        rw [runSteps_writeChunks]
        rfl

lemma atomic_write_json_eq_front (chunks : List String) :
    atomic_write_json chunks
      = ([WriteStep.makedirs, WriteStep.openTmp]
          ++ chunks.map WriteStep.writeChunk ++ [WriteStep.fsyncTmp]) ++ [WriteStep.renameTmp] := by
  simp [atomic_write_json]

lemma renameTmp_not_mem_front (chunks : List String) :
    WriteStep.renameTmp
      ∉ [WriteStep.makedirs, WriteStep.openTmp]
          ++ chunks.map WriteStep.writeChunk ++ [WriteStep.fsyncTmp] := by
  simp [List.mem_append, List.mem_map]

lemma write_interrupted_target (fs : FS) (chunks : List String) (k : Nat) :
    (write_interrupted fs chunks k).target = fs.target
      ∨ (write_interrupted fs chunks k).target = Option.some (joinChunks chunks) := by
  by_cases hk :
      k ≤ ([WriteStep.makedirs, WriteStep.openTmp]
            ++ chunks.map WriteStep.writeChunk ++ [WriteStep.fsyncTmp]).length
  · left
    unfold write_interrupted
    rw [atomic_write_json_eq_front, List.take_append_of_le_length hk]
    exact runSteps_target_of_not_mem _ fs fun hm =>
      renameTmp_not_mem_front chunks ((List.take_sublist _ _).mem hm)
  · right
    unfold write_interrupted
    have hlen : (atomic_write_json chunks).length ≤ k := by
      rw [atomic_write_json_eq_front]
      simp at hk ⊢
      omega
    rw [List.take_of_length_le hlen, runSteps_atomic]

lemma retryGo_ne_unboundLocal (outcomes : Nat → AttemptOutcome) (jitter : Nat → Rat)
    (base : Rat) :
    ∀ (fuel attempt : Nat) (c : String),
      (retryGo outcomes jitter base attempt fuel (Option.some c)).1
        ≠ RetryResult.unboundLocal := by
  intro fuel
  induction fuel with
  | zero => intro attempt c; simp [retryGo]
  | succ f ih =>
      intro attempt c
      unfold retryGo
      cases h : attemptEval (outcomes attempt) with
      | inl v => simp [h]
      | inr c2 => simpa [h] using ih (attempt + 1) c2

lemma retryGo_success (outcomes : Nat → AttemptOutcome) (jitter : Nat → Rat) (base : Rat) :
    ∀ (fuel k attempt : Nat) (lastErr : Option String) (v : PyVal),
      k < fuel →
      (∀ i, i < k → ∃ c, attemptEval (outcomes (attempt + i)) = Sum.inr c) →
      attemptEval (outcomes (attempt + k)) = Sum.inl v →
      retryGo outcomes jitter base attempt fuel lastErr
        = (RetryResult.success v,
           (List.range k).map (fun i => base * 2 ^ (attempt + i) + jitter (attempt + i))) := by
  intro fuel
  induction fuel with
  | zero => intro k attempt lastErr v hk; exact absurd hk (Nat.not_lt_zero k)
  | succ f ih =>
      intro k attempt lastErr v hk hfail hsucc
      match k with
      | 0 =>
          rw [Nat.add_zero] at hsucc
          unfold retryGo
          rw [hsucc]
          simp
      | k' + 1 =>
          obtain ⟨c, hc⟩ := hfail 0 (Nat.succ_pos k')
          rw [Nat.add_zero] at hc
          have hih := ih k' (attempt + 1) (Option.some c) v (by omega)
            (fun i hi => by
              obtain ⟨ci, hci⟩ := hfail (i + 1) (by omega)
              exact ⟨ci, by rwa [show attempt + (i + 1) = attempt + 1 + i by omega] at hci⟩)
            (by rwa [show attempt + (k' + 1) = attempt + 1 + k' by omega] at hsucc)
          unfold retryGo
          rw [hc]
          have harr : ∀ i : Nat, attempt + 1 + i = attempt + (i + 1) := fun i => by omega
          simp [hih, List.range_succ_eq_map, List.map_map, Function.comp, harr]

lemma retryGo_exhaust (outcomes : Nat → AttemptOutcome) (jitter : Nat → Rat) (base : Rat) :
    ∀ (fuel attempt : Nat) (lastErr : Option String) (c : String),
      1 ≤ fuel →
      (∀ i, i < fuel → ∃ ci, attemptEval (outcomes (attempt + i)) = Sum.inr ci) →
      attemptEval (outcomes (attempt + (fuel - 1))) = Sum.inr c →
      retryGo outcomes jitter base attempt fuel lastErr
        = (RetryResult.exhausted c,
           (List.range fuel).map (fun i => base * 2 ^ (attempt + i) + jitter (attempt + i))) := by
  intro fuel
  induction fuel with
  | zero => intro attempt lastErr c h1; exact absurd h1 (by omega)
  | succ f ih =>
      intro attempt lastErr c _ hfail hlast
      by_cases hf : f = 0
      · subst hf
        rw [Nat.add_zero] at hlast
        unfold retryGo
        rw [hlast]
        simp [retryGo, List.range_succ]
      · obtain ⟨c0, hc0⟩ := hfail 0 (Nat.succ_pos f)
        rw [Nat.add_zero] at hc0
        have hih := ih (attempt + 1) (Option.some c0) c (by omega)
          (fun i hi => by
            obtain ⟨ci, hci⟩ := hfail (i + 1) (by omega)
            exact ⟨ci, by rwa [show attempt + (i + 1) = attempt + 1 + i by omega] at hci⟩)
          (by rwa [show attempt + (f + 1 - 1) = attempt + 1 + (f - 1) by omega] at hlast)
        unfold retryGo
        rw [hc0]
        have harr : ∀ i : Nat, attempt + 1 + i = attempt + (i + 1) := fun i => by omega
        simp [hih, List.range_succ_eq_map, List.map_map, Function.comp, harr]

/-! ## Claim theorems -/

/-- C2: at every point during and after a snapshot write the output path
holds either the previous snapshot or the complete new document, never a
truncated one; a cycle that fails before the write leaves the filesystem
untouched, and the scheduler continues with the remaining cycles. -/
theorem snapshot_atomicity_and_failed_cycle_keeps_previous :
    (∀ (fs : FS) (chunks : List String) (k : Nat),
        (write_interrupted fs chunks k).target = fs.target
          ∨ (write_interrupted fs chunks k).target = Option.some (joinChunks chunks))
    ∧ (∀ (fs : FS) (chunks : List String),
        (run_once fs (Except.ok chunks)).target = Option.some (joinChunks chunks))
    ∧ (∀ (fs : FS) (e : String), run_once fs (Except.error e) = fs)
    ∧ (∀ (fs : FS) (e : String) (rest : List (Except String (List String))),
        scheduler_cycles fs (Except.error e :: rest) = scheduler_cycles fs rest) := by
  refine ⟨write_interrupted_target, fun fs chunks => ?_, fun fs e => rfl, fun fs e rest => rfl⟩
  show (runSteps fs (atomic_write_json chunks)).target = _
  rw [runSteps_atomic]

/-- C8 counterexample: `_safe_int` strips surrounding whitespace before
the digit test, so the string `" 42 "`, which does not consist solely of
decimal digits, is parsed to an integer instead of yielding null as the
claim states. -/
theorem safe_int_accepts_padded_string :
    safe_int (PyVal.str " 42 ") = Option.some 42 ∧ specDigitString " 42 " = false := by
  exact ⟨by decide, by decide⟩

/-- C8 (amended): `_safe_int` returns an integer exactly when the input
is an integer, a boolean (coerced to 0/1), a float (truncated toward
zero), or a string whose whitespace-stripped form consists solely of
decimal digits (parsed); every other input yields null. -/
theorem safe_int_characterization (v : PyVal) :
    ((∃ n, safe_int v = Option.some n) ↔
      ((∃ n, v = PyVal.int n) ∨ (∃ b, v = PyVal.bool b) ∨ (∃ q, v = PyVal.float q)
        ∨ (∃ s, v = PyVal.str s ∧ pyIsDigit (pyStrip s) = true)))
    ∧ (∀ n, v = PyVal.int n → safe_int v = Option.some n)
    ∧ (∀ b, v = PyVal.bool b → safe_int v = Option.some (if b then 1 else 0))
    ∧ (∀ q, v = PyVal.float q → safe_int v = Option.some (ratTrunc q))
    ∧ (∀ s, v = PyVal.str s → pyIsDigit (pyStrip s) = true →
        safe_int v = Option.some (pyParseDigits (pyStrip s))) := by
  cases v <;> simp [safe_int]

/-- Witness for `safe_int_characterization` at the input `" 7 "`. -/
theorem safe_int_characterization_witness :
    safe_int (PyVal.str " 7 ") = Option.some (pyParseDigits (pyStrip " 7 ")) :=
  (safe_int_characterization (PyVal.str " 7 ")).2.2.2.2 " 7 " rfl (by decide)

/-- C10: with `retries = 0` the loop body of `_get_json_with_retry` never
runs and the final raise reads the never-assigned local `last_err`, so the
call fails with an unbound-local error instead of the documented
aggregated fetch error; with `retries >= 1` that error is impossible. -/
theorem retry_zero_retries_unbound (outcomes : Nat → AttemptOutcome) (jitter : Nat → Rat)
    (base : Rat) (retries : Nat) :
    (retries = 0 →
      get_json_with_retry outcomes jitter retries base = (RetryResult.unboundLocal, []))
    ∧ (1 ≤ retries →
      (get_json_with_retry outcomes jitter retries base).1 ≠ RetryResult.unboundLocal) := by
  constructor
  · intro h
    subst h
    rfl
  · intro h
    match retries, h with
    | f + 1, _ =>
      show (retryGo outcomes jitter base 0 (f + 1) Option.none).1 ≠ _
      unfold retryGo
      cases hc : attemptEval (outcomes 0) with
      | inl v => simp [hc]
      | inr c => simpa [hc] using retryGo_ne_unboundLocal outcomes jitter base f 1 c

/-- Witness for `retry_zero_retries_unbound` at `retries = 0` and
`retries = 3`. -/
theorem retry_zero_retries_unbound_witness :
    get_json_with_retry (fun _ => AttemptOutcome.exn "boom") (fun _ => 0) 0 1
        = (RetryResult.unboundLocal, [])
      ∧ (get_json_with_retry (fun _ => AttemptOutcome.exn "boom") (fun _ => 0) 3 1).1
        ≠ RetryResult.unboundLocal :=
  ⟨(retry_zero_retries_unbound (fun _ => AttemptOutcome.exn "boom") (fun _ => 0) 1 0).1 rfl,
   (retry_zero_retries_unbound (fun _ => AttemptOutcome.exn "boom") (fun _ => 0) 1 3).2
     (by decide)⟩

/-- C6 counterexample: with 3 attempts all failing, the fetcher performs
3 backoff sleeps — one after the final failed attempt as well — before
raising the aggregated error, whereas the claim predicts no backoff sleep
once attempts are exhausted (2 sleeps for 3 attempts). -/
theorem retry_sleeps_after_final_attempt :
    (get_json_with_retry (fun _ => AttemptOutcome.exn "boom") (fun _ => 0) 3 (mkRat 3 5)).1
        = RetryResult.exhausted "boom"
      ∧ (get_json_with_retry (fun _ => AttemptOutcome.exn "boom") (fun _ => 0) 3
          (mkRat 3 5)).2.length = 3
      ∧ ¬ (get_json_with_retry (fun _ => AttemptOutcome.exn "boom") (fun _ => 0) 3
          (mkRat 3 5)).2.length = 2 :=
  ⟨rfl, rfl, by decide⟩

/-- C6 (amended): a non-object body counts as a failed attempt; a
successful attempt returns the decoded object immediately after one sleep
per previously failed attempt, each of `base * 2 ^ attempt + jitter`; on
exhaustion the fetcher sleeps after every failed attempt, the final one
included, and then raises a single aggregated error referencing the last
cause. -/
theorem retry_backoff_behaviour (outcomes : Nat → AttemptOutcome) (jitter : Nat → Rat)
    (retries : Nat) (base : Rat) :
    (∀ v : PyVal, v.isDict = false →
        attemptEval (AttemptOutcome.ok v) = Sum.inr "response is not a json object")
    ∧ (∀ (k : Nat) (v : PyVal), k < retries →
        (∀ i, i < k → ∃ c, attemptEval (outcomes i) = Sum.inr c) →
        attemptEval (outcomes k) = Sum.inl v →
        get_json_with_retry outcomes jitter retries base
          = (RetryResult.success v, (List.range k).map (fun i => base * 2 ^ i + jitter i)))
    ∧ (∀ c : String, 1 ≤ retries →
        (∀ i, i < retries → ∃ ci, attemptEval (outcomes i) = Sum.inr ci) →
        attemptEval (outcomes (retries - 1)) = Sum.inr c →
        get_json_with_retry outcomes jitter retries base
          = (RetryResult.exhausted c,
             (List.range retries).map (fun i => base * 2 ^ i + jitter i))) := by
  refine ⟨fun v hv => by simp [attemptEval, hv], ?_, ?_⟩
  · intro k v hk hfail hsucc
    have := retryGo_success outcomes jitter base retries k 0 Option.none v hk
      (fun i hi => by simpa using hfail i hi) (by simpa using hsucc)
    simpa using this
  · intro c h1 hfail hlast
    have := retryGo_exhaust outcomes jitter base retries 0 Option.none c h1
      (fun i hi => by simpa using hfail i hi) (by simpa using hlast)
    simpa using this

/-- Witness for `retry_backoff_behaviour`: a success at attempt 1 after
one failure, and an exhaustion after two failures. -/
theorem retry_backoff_behaviour_witness :
    (get_json_with_retry
        (fun i => if i = 0 then AttemptOutcome.exn "boom" else AttemptOutcome.ok (PyVal.dict []))
        (fun _ => 0) 3 1
      = (RetryResult.success (PyVal.dict []),
         (List.range 1).map (fun i => (1 : Rat) * 2 ^ i + (fun _ => (0 : Rat)) i)))
    ∧ (get_json_with_retry (fun _ => AttemptOutcome.exn "boom") (fun _ => 0) 2 1
      = (RetryResult.exhausted "boom",
         (List.range 2).map (fun i => (1 : Rat) * 2 ^ i + (fun _ => (0 : Rat)) i))) := by
  constructor
  · exact (retry_backoff_behaviour
      (fun i => if i = 0 then AttemptOutcome.exn "boom" else AttemptOutcome.ok (PyVal.dict []))
      (fun _ => 0) 3 1).2.1 1 (PyVal.dict []) (by decide)
      (fun i hi => ⟨"boom", by interval_cases i; rfl⟩) rfl
  · exact (retry_backoff_behaviour (fun _ => AttemptOutcome.exn "boom")
      (fun _ => 0) 2 1).2.2 "boom" (by decide) (fun i hi => ⟨"boom", rfl⟩) rfl

lemma itemLe_count_facts {a b : EnrichedItem} (h : itemLe a b) :
    (∀ na nb, a.online_count = Option.some na → 0 ≤ na →
      b.online_count = Option.some nb → 0 ≤ nb → nb ≤ na)
    ∧ ((∃ n, b.online_count = Option.some n ∧ 0 ≤ n) →
       ∃ n, a.online_count = Option.some n ∧ 0 ≤ n) := by
  constructor
  · intro na nb hna hpa hnb hpb
    simp only [itemLe, keyLe, sort_key, hna, hnb, hpa, hpb, if_true] at h
    simp at h
    omega
  · rintro ⟨nb, hnb, hpb⟩
    rcases ha : a.online_count with _ | na
    · exfalso
      simp only [itemLe, keyLe, sort_key, ha, hnb, hpb, if_true] at h
      simp at h
    · by_cases hpa : 0 ≤ na
      · exact ⟨na, rfl, hpa⟩
      · exfalso
        simp only [itemLe, keyLe, sort_key, ha, hnb, hpb, if_true] at h
        rw [if_neg hpa, if_neg hpa] at h
        simp at h

/-- C3: in every item list the aggregator produces, an earlier item with
a non-null non-negative online count has a count at least that of any
later such item, and an item with a non-null non-negative count never
appears after a position whose item has a null or negative count. -/
theorem build_payload_items_ranked (inputs : List (NetEnv × PyVal)) (i j : Nat)
    (dflt : EnrichedItem) (hij : i < j) (hj : j < (build_payload_items inputs).length) :
    (∀ na nb,
      ((build_payload_items inputs).getD i dflt).online_count = Option.some na → 0 ≤ na →
      ((build_payload_items inputs).getD j dflt).online_count = Option.some nb → 0 ≤ nb →
      nb ≤ na)
    ∧ ((∃ n, ((build_payload_items inputs).getD j dflt).online_count = Option.some n ∧ 0 ≤ n) →
       ∃ n, ((build_payload_items inputs).getD i dflt).online_count = Option.some n ∧ 0 ≤ n) := by
  have hi : i < (build_payload_items inputs).length := Nat.lt_trans hij hj
  have hs : List.Sorted itemLe (build_payload_items inputs) :=
    List.sorted_insertionSort itemLe (collectEnriched inputs)
  have hrel : itemLe ((build_payload_items inputs).getD i dflt)
      ((build_payload_items inputs).getD j dflt) := by
    rw [List.getD_eq_getElem _ _ hi, List.getD_eq_getElem _ _ hj]
    exact List.pairwise_iff_getElem.mp hs i j hi hj hij
  exact itemLe_count_facts hrel

/-- Witness for `build_payload_items_ranked` on a two-entry catalog whose
online counts are 3 and 5: the sorted snapshot puts 5 first. -/
theorem build_payload_items_ranked_witness :
    (∀ na nb,
      ((build_payload_items
        [({ viewResult := Except.ok (PyVal.dict [("data", PyVal.dict [("cid", PyVal.int 7)])]),
            onlineResult := Except.ok (PyVal.dict [("code", PyVal.int 0),
              ("data", PyVal.dict [("count", PyVal.int 3)])]) },
          PyVal.dict [("bvid", PyVal.str "BV1")]),
         ({ viewResult := Except.ok (PyVal.dict [("data", PyVal.dict [("cid", PyVal.int 7)])]),
            onlineResult := Except.ok (PyVal.dict [("code", PyVal.int 0),
              ("data", PyVal.dict [("count", PyVal.int 5)])]) },
          PyVal.dict [("bvid", PyVal.str "BV2")])]).getD 0
        { bvid := "", title := "", pic := "", owner := PyVal.none, online_total := PyVal.none,
          online_count := Option.none, view := Option.none, danmaku := Option.none,
          pubdate := "" }).online_count = Option.some na → 0 ≤ na →
      ((build_payload_items
        [({ viewResult := Except.ok (PyVal.dict [("data", PyVal.dict [("cid", PyVal.int 7)])]),
            onlineResult := Except.ok (PyVal.dict [("code", PyVal.int 0),
              ("data", PyVal.dict [("count", PyVal.int 3)])]) },
          PyVal.dict [("bvid", PyVal.str "BV1")]),
         ({ viewResult := Except.ok (PyVal.dict [("data", PyVal.dict [("cid", PyVal.int 7)])]),
            onlineResult := Except.ok (PyVal.dict [("code", PyVal.int 0),
              ("data", PyVal.dict [("count", PyVal.int 5)])]) },
          PyVal.dict [("bvid", PyVal.str "BV2")])]).getD 1
        { bvid := "", title := "", pic := "", owner := PyVal.none, online_total := PyVal.none,
          online_count := Option.none, view := Option.none, danmaku := Option.none,
          pubdate := "" }).online_count = Option.some nb → 0 ≤ nb →
      nb ≤ na)
    ∧ ((∃ n, ((build_payload_items
        [({ viewResult := Except.ok (PyVal.dict [("data", PyVal.dict [("cid", PyVal.int 7)])]),
            onlineResult := Except.ok (PyVal.dict [("code", PyVal.int 0),
              ("data", PyVal.dict [("count", PyVal.int 3)])]) },
          PyVal.dict [("bvid", PyVal.str "BV1")]),
         ({ viewResult := Except.ok (PyVal.dict [("data", PyVal.dict [("cid", PyVal.int 7)])]),
            onlineResult := Except.ok (PyVal.dict [("code", PyVal.int 0),
              ("data", PyVal.dict [("count", PyVal.int 5)])]) },
          PyVal.dict [("bvid", PyVal.str "BV2")])]).getD 1
        { bvid := "", title := "", pic := "", owner := PyVal.none, online_total := PyVal.none,
          online_count := Option.none, view := Option.none, danmaku := Option.none,
          pubdate := "" }).online_count = Option.some n ∧ 0 ≤ n) →
       ∃ n, ((build_payload_items
        [({ viewResult := Except.ok (PyVal.dict [("data", PyVal.dict [("cid", PyVal.int 7)])]),
            onlineResult := Except.ok (PyVal.dict [("code", PyVal.int 0),
              ("data", PyVal.dict [("count", PyVal.int 3)])]) },
          PyVal.dict [("bvid", PyVal.str "BV1")]),
         ({ viewResult := Except.ok (PyVal.dict [("data", PyVal.dict [("cid", PyVal.int 7)])]),
            onlineResult := Except.ok (PyVal.dict [("code", PyVal.int 0),
              ("data", PyVal.dict [("count", PyVal.int 5)])]) },
          PyVal.dict [("bvid", PyVal.str "BV2")])]).getD 0
        { bvid := "", title := "", pic := "", owner := PyVal.none, online_total := PyVal.none,
          online_count := Option.none, view := Option.none, danmaku := Option.none,
          pubdate := "" }).online_count = Option.some n ∧ 0 ≤ n) :=
  build_payload_items_ranked _ 0 1 _ (by decide) (by decide)

lemma build_payload_items_skip (env : NetEnv) (d : PyDict)
    (pre post : List (NetEnv × PyVal)) (e : String)
    (h : (enrich_video env d).1 = Except.error e) :
    build_payload_items (pre ++ (env, PyVal.dict d) :: post)
      = build_payload_items (pre ++ post) := by
  unfold build_payload_items
  congr 1
  unfold collectEnriched
  rw [List.filterMap_append, List.filterMap_append, List.filterMap_cons]
  simp [h, Except.toOption]

lemma build_payload_items_keep (env : NetEnv) (d : PyDict) (it : EnrichedItem)
    (pre post : List (NetEnv × PyVal))
    (h : (enrich_video env d).1 = Except.ok it) :
    it ∈ build_payload_items (pre ++ (env, PyVal.dict d) :: post) := by
  unfold build_payload_items
  rw [List.mem_insertionSort]
  unfold collectEnriched
  rw [List.filterMap_append, List.filterMap_cons]
  simp [h, Except.toOption]

/-- C9: a catalog entry whose identifier is missing, empty or not a
string is rejected with no network call issued, never retried, and
contributes nothing to the snapshot wherever it appears in the catalog. -/
theorem missing_identifier_dropped (env : NetEnv) (d : PyDict)
    (pre post : List (NetEnv × PyVal))
    (hbad : (d.get "bvid").isStr = false ∨ d.get "bvid" = PyVal.str "") :
    (enrich_video env d).1 = Except.error "missing bvid"
    ∧ (enrich_video env d).2 = []
    ∧ build_payload_items (pre ++ (env, PyVal.dict d) :: post)
        = build_payload_items (pre ++ post) := by
  have henr : enrich_video env d = (Except.error "missing bvid", []) := by
    unfold enrich_video
    rcases hbad with hbad | hbad
    · cases hb : d.get "bvid" <;> simp_all [PyVal.isStr]
    · rw [hbad]
      simp
  exact ⟨by rw [henr], by rw [henr],
    build_payload_items_skip env d pre post "missing bvid" (by rw [henr])⟩

/-- Witness for `missing_identifier_dropped`: an entry with no `bvid`
key at all. -/
theorem missing_identifier_dropped_witness :
    (enrich_video
        { viewResult := Except.ok (PyVal.dict []), onlineResult := Except.ok (PyVal.dict []) }
        [("title", PyVal.str "A")]).1 = Except.error "missing bvid"
    ∧ (enrich_video
        { viewResult := Except.ok (PyVal.dict []), onlineResult := Except.ok (PyVal.dict []) }
        [("title", PyVal.str "A")]).2 = []
    ∧ build_payload_items
        ([] ++ ({ viewResult := Except.ok (PyVal.dict []),
                  onlineResult := Except.ok (PyVal.dict []) },
                PyVal.dict [("title", PyVal.str "A")]) :: [])
        = build_payload_items ([] ++ []) :=
  missing_identifier_dropped
    { viewResult := Except.ok (PyVal.dict []), onlineResult := Except.ok (PyVal.dict []) }
    [("title", PyVal.str "A")] [] [] (Or.inl rfl)

/-- C1 counterexample: a catalog entry that carries title, owner, stat,
pic and pubdate but whose detail fetch has failed after exhausting
retries is NOT enriched from the raw-entry fields: the enrichment
re-raises and the entry is excluded from the snapshot. -/
theorem detail_failure_excludes_entry :
    enrich_video
        { viewResult := Except.error "GET view failed after 3 retries: ReadTimeout",
          onlineResult := Except.ok (PyVal.dict []) }
        [("bvid", PyVal.str "BV1"), ("title", PyVal.str "T"),
         ("owner", PyVal.dict [("name", PyVal.str "U")]),
         ("stat", PyVal.dict [("view", PyVal.int 5), ("danmaku", PyVal.int 2)]),
         ("pic", PyVal.str "P"), ("pubdate", PyVal.int 100)]
      = (Except.error "GET view failed after 3 retries: ReadTimeout", [NetCall.viewCall "BV1"])
    ∧ build_payload_items
        [({ viewResult := Except.error "GET view failed after 3 retries: ReadTimeout",
            onlineResult := Except.ok (PyVal.dict []) },
          PyVal.dict
            [("bvid", PyVal.str "BV1"), ("title", PyVal.str "T"),
             ("owner", PyVal.dict [("name", PyVal.str "U")]),
             ("stat", PyVal.dict [("view", PyVal.int 5), ("danmaku", PyVal.int 2)]),
             ("pic", PyVal.str "P"), ("pubdate", PyVal.int 100)])]
      = [] :=
  ⟨rfl, rfl⟩

/-- C1 (amended): a detail-fetch failure after exhausting retries is
fatal to that entry — the enrichment re-raises the aggregated error and
the aggregator excludes the entry from the snapshot (the cycle itself
continues); enrichment from raw-entry fields happens only when the detail
call returns successfully but its data is missing fields. -/
theorem detail_failure_fatal_to_entry (env : NetEnv) (d : PyDict) (b e : String)
    (hb : d.get "bvid" = PyVal.str b) (hne : b ≠ "")
    (herr : env.viewResult = Except.error e) :
    (enrich_video env d).1 = Except.error e
    ∧ (∀ pre post, build_payload_items (pre ++ (env, PyVal.dict d) :: post)
        = build_payload_items (pre ++ post))
    ∧ (∀ (env2 : NetEnv) (t : String),
        env2.viewResult = Except.ok (PyVal.dict [("data", PyVal.dict [])]) →
        d.get "title" = PyVal.str t →
        match (enrich_video env2 d).1 with
        | Except.ok it => it.title = t ∧ it.bvid = b
        | Except.error _ => False) := by
  have henr : (enrich_video env d).1 = Except.error e := by
    unfold enrich_video
    rw [hb]
    dsimp only
    rw [if_neg hne, herr]
  refine ⟨henr, fun pre post => build_payload_items_skip env d pre post e henr, ?_⟩
  intro env2 t hok2 htitle
  unfold enrich_video
  rw [hb]
  dsimp only
  rw [if_neg hne, hok2]
  have hvd : resolve_view_data (PyVal.dict [("data", PyVal.dict [])]) = PyVal.dict [] := rfl
  dsimp only
  rw [hvd]
  dsimp only [PyDict.get, List.lookup, safe_int]
  simp [resolve_title, htitle, PyVal.isStr]

/-- Witness for `detail_failure_fatal_to_entry` on a concrete entry with
both fetch outcomes exercised. -/
theorem detail_failure_fatal_to_entry_witness :
    (enrich_video
        { viewResult := Except.error "boom", onlineResult := Except.ok (PyVal.dict []) }
        [("bvid", PyVal.str "BV1"), ("title", PyVal.str "T")]).1 = Except.error "boom"
    ∧ build_payload_items
        ([] ++ ({ viewResult := Except.error "boom",
                  onlineResult := Except.ok (PyVal.dict []) },
                PyVal.dict [("bvid", PyVal.str "BV1"), ("title", PyVal.str "T")]) :: [])
        = build_payload_items ([] ++ [])
    ∧ (match (enrich_video
          { viewResult := Except.ok (PyVal.dict [("data", PyVal.dict [])]),
            onlineResult := Except.ok (PyVal.dict []) }
          [("bvid", PyVal.str "BV1"), ("title", PyVal.str "T")]).1 with
       | Except.ok it => it.title = "T" ∧ it.bvid = "BV1"
       | Except.error _ => False) :=
  ⟨(detail_failure_fatal_to_entry
      { viewResult := Except.error "boom", onlineResult := Except.ok (PyVal.dict []) }
      [("bvid", PyVal.str "BV1"), ("title", PyVal.str "T")] "BV1" "boom" rfl
      (by decide) rfl).1,
   (detail_failure_fatal_to_entry
      { viewResult := Except.error "boom", onlineResult := Except.ok (PyVal.dict []) }
      [("bvid", PyVal.str "BV1"), ("title", PyVal.str "T")] "BV1" "boom" rfl
      (by decide) rfl).2.1 [] [],
   (detail_failure_fatal_to_entry
      { viewResult := Except.error "boom", onlineResult := Except.ok (PyVal.dict []) }
      [("bvid", PyVal.str "BV1"), ("title", PyVal.str "T")] "BV1" "boom" rfl
      (by decide) rfl).2.2
     { viewResult := Except.ok (PyVal.dict [("data", PyVal.dict [])]),
       onlineResult := Except.ok (PyVal.dict []) } "T" rfl rfl⟩

lemma enrich_ok_shape (env : NetEnv) (d : PyDict) (it : EnrichedItem)
    (h : (enrich_video env d).1 = Except.ok it) :
    ∃ (b : String) (vr : PyVal) (vd : PyDict),
      d.get "bvid" = PyVal.str b ∧ b ≠ ""
      ∧ env.viewResult = Except.ok vr
      ∧ resolve_view_data vr = PyVal.dict vd
      ∧ it.bvid = b
      ∧ it.title = resolve_title d vd b
      ∧ it.pic = resolve_pic d vd
      ∧ it.owner = resolve_owner d vd
      ∧ it.view = stat_view (resolve_stat d vd)
      ∧ it.danmaku = stat_danmaku (resolve_stat d vd)
      ∧ it.pubdate = formatTimestamp (resolve_pubdate d vd) := by
  unfold enrich_video at h
  rcases hb : d.get "bvid" with _ | b' | n' | q' | bS | xs' | d'
  · rw [hb] at h; simp at h
  · rw [hb] at h; simp at h
  · rw [hb] at h; simp at h
  · rw [hb] at h; simp at h
  · rw [hb] at h
    dsimp only at h
    by_cases hbe : bS = ""
    · rw [if_pos hbe] at h; simp at h
    · rw [if_neg hbe] at h
      rcases hv : env.viewResult with e' | vr
      · rw [hv] at h; simp at h
      · rw [hv] at h
        dsimp only at h
        rcases hvd : resolve_view_data vr with _ | _ | _ | _ | _ | _ | vd
        · rw [hvd] at h; simp at h
        · rw [hvd] at h; simp at h
        · rw [hvd] at h; simp at h
        · rw [hvd] at h; simp at h
        · rw [hvd] at h; simp at h
        · rw [hvd] at h; simp at h
        · rw [hvd] at h
          dsimp only at h
          rcases hcid : safe_int (PyDict.get vd "cid") with _ | c
          · rw [hcid] at h
            dsimp only at h
            injection h with h2
            subst h2
            exact ⟨bS, vr, vd, rfl, hbe, rfl, hvd, rfl, rfl, rfl, rfl, rfl, rfl, rfl⟩
          · rw [hcid] at h
            dsimp only at h
            by_cases hc : c = 0
            · rw [if_neg (by simp [hc])] at h
              dsimp only at h
              injection h with h2
              subst h2
              exact ⟨bS, vr, vd, rfl, hbe, rfl, hvd, rfl, rfl, rfl, rfl, rfl, rfl, rfl⟩
            · rw [if_pos hc] at h
              rcases ho : env.onlineResult with e' | oraw
              · rw [ho] at h; simp at h
              · rw [ho] at h
                dsimp only at h
                rcases horaw : oraw with _ | _ | _ | _ | _ | _ | od
                · subst horaw; simp at h
                · subst horaw; simp at h
                · subst horaw; simp at h
                · subst horaw; simp at h
                · subst horaw; simp at h
                · subst horaw; simp at h
                · subst horaw
                  dsimp only at h
                  injection h with h2
                  subst h2
                  exact ⟨bS, vr, vd, rfl, hbe, rfl, hvd, rfl, rfl, rfl, rfl, rfl, rfl, rfl⟩
  · rw [hb] at h; simp at h
  · rw [hb] at h; simp at h

lemma placeholder_title_ne_empty (b : String) : "(untitled) " ++ b ≠ "" := by
  intro h
  have hlen := congrArg String.length h
  rw [String.length_append] at hlen
  have h1 : "(untitled) ".length = 11 := rfl
  have h2 : ("" : String).length = 0 := rfl
  omega

lemma resolve_title_empty (d vd : PyDict) (b : String)
    (h : resolve_title d vd b = "") :
    d.get "title" = PyVal.str "" ∨ PyDict.get vd "title" = PyVal.str "" := by
  unfold resolve_title at h
  by_cases hs : (d.get "title").isStr
  · rw [if_pos hs] at h
    cases hd : d.get "title" <;> rw [hd] at h <;>
      first
      | (exact absurd h (placeholder_title_ne_empty b))
      | (left; simp at h; rw [h])
  · rw [if_neg hs] at h
    cases hd : PyDict.get vd "title" <;> rw [hd] at h <;>
      first
      | (exact absurd h (placeholder_title_ne_empty b))
      | (right; simp at h; rw [h])

/-- C4 counterexample: a successfully enriched item whose title is the
empty string — the raw entry supplies an empty-string title, which is a
string, so the placeholder fallback does not trigger. -/
theorem enriched_title_can_be_empty :
    (enrich_video
        { viewResult := Except.ok (PyVal.dict [("data", PyVal.dict [])]),
          onlineResult := Except.ok (PyVal.dict []) }
        [("bvid", PyVal.str "BV1"), ("title", PyVal.str "")]).1
      = Except.ok { bvid := "BV1", title := "", pic := "", owner := PyVal.none,
                    online_total := PyVal.none, online_count := Option.none,
                    view := Option.none, danmaku := Option.none, pubdate := "ts:0" } := rfl

/-- C4 (amended): every successfully enriched item carries a non-empty
copy of the input identifier, numeric fields that are integers or null,
and a title that can be empty only when the raw entry or the detail data
explicitly supplies an empty-string title (otherwise the synthesized
placeholder guarantees non-emptiness). -/
theorem enriched_item_field_types (env : NetEnv) (d : PyDict) (it : EnrichedItem)
    (h : (enrich_video env d).1 = Except.ok it) :
    d.get "bvid" = PyVal.str it.bvid ∧ it.bvid ≠ ""
    ∧ (it.title = "" →
        d.get "title" = PyVal.str ""
        ∨ (∃ vr vd, env.viewResult = Except.ok vr ∧ resolve_view_data vr = PyVal.dict vd
            ∧ PyDict.get vd "title" = PyVal.str ""))
    ∧ (it.view = Option.none ∨ ∃ n : Int, it.view = Option.some n)
    ∧ (it.danmaku = Option.none ∨ ∃ n : Int, it.danmaku = Option.some n)
    ∧ (it.online_count = Option.none ∨ ∃ n : Int, it.online_count = Option.some n) := by
  obtain ⟨b, vr, vd, hb, hbe, hv, hvd, hbv, ht, hp, how, hvw, hdk, hpd⟩ :=
    enrich_ok_shape env d it h
  subst hbv
  refine ⟨hb, hbe, ?_, ?_, ?_, ?_⟩
  · intro hte
    rcases resolve_title_empty d vd it.bvid (ht ▸ hte) with h0 | h0
    · exact Or.inl h0
    · exact Or.inr ⟨vr, vd, hv, hvd, h0⟩
  · cases hview : it.view with
    | none => exact Or.inl rfl
    | some n => exact Or.inr ⟨n, rfl⟩
  · cases hd : it.danmaku with
    | none => exact Or.inl rfl
    | some n => exact Or.inr ⟨n, rfl⟩
  · cases hoc : it.online_count with
    | none => exact Or.inl rfl
    | some n => exact Or.inr ⟨n, rfl⟩

/-- Witness for `enriched_item_field_types` on a concrete enrichment. -/
theorem enriched_item_field_types_witness :
    PyDict.get [("bvid", PyVal.str "BV1"), ("title", PyVal.str "T")] "bvid"
        = PyVal.str ({ bvid := "BV1", title := "T", pic := "", owner := PyVal.none,
                       online_total := PyVal.none, online_count := Option.none,
                       view := Option.none, danmaku := Option.none,
                       pubdate := "ts:0" : EnrichedItem }).bvid
    ∧ ({ bvid := "BV1", title := "T", pic := "", owner := PyVal.none,
         online_total := PyVal.none, online_count := Option.none,
         view := Option.none, danmaku := Option.none,
         pubdate := "ts:0" : EnrichedItem }).bvid ≠ ""
    ∧ (({ bvid := "BV1", title := "T", pic := "", owner := PyVal.none,
          online_total := PyVal.none, online_count := Option.none,
          view := Option.none, danmaku := Option.none,
          pubdate := "ts:0" : EnrichedItem }).title = "" →
        PyDict.get [("bvid", PyVal.str "BV1"), ("title", PyVal.str "T")] "title"
            = PyVal.str ""
        ∨ (∃ vr vd, ({ viewResult := Except.ok (PyVal.dict [("data", PyVal.dict [])]),
                       onlineResult := Except.ok (PyVal.dict []) : NetEnv }).viewResult
              = Except.ok vr
            ∧ resolve_view_data vr = PyVal.dict vd
            ∧ PyDict.get vd "title" = PyVal.str ""))
    ∧ (({ bvid := "BV1", title := "T", pic := "", owner := PyVal.none,
          online_total := PyVal.none, online_count := Option.none,
          view := Option.none, danmaku := Option.none,
          pubdate := "ts:0" : EnrichedItem }).view = Option.none
        ∨ ∃ n : Int, ({ bvid := "BV1", title := "T", pic := "", owner := PyVal.none,
                        online_total := PyVal.none, online_count := Option.none,
                        view := Option.none, danmaku := Option.none,
                        pubdate := "ts:0" : EnrichedItem }).view = Option.some n)
    ∧ (({ bvid := "BV1", title := "T", pic := "", owner := PyVal.none,
          online_total := PyVal.none, online_count := Option.none,
          view := Option.none, danmaku := Option.none,
          pubdate := "ts:0" : EnrichedItem }).danmaku = Option.none
        ∨ ∃ n : Int, ({ bvid := "BV1", title := "T", pic := "", owner := PyVal.none,
                        online_total := PyVal.none, online_count := Option.none,
                        view := Option.none, danmaku := Option.none,
                        pubdate := "ts:0" : EnrichedItem }).danmaku = Option.some n)
    ∧ (({ bvid := "BV1", title := "T", pic := "", owner := PyVal.none,
          online_total := PyVal.none, online_count := Option.none,
          view := Option.none, danmaku := Option.none,
          pubdate := "ts:0" : EnrichedItem }).online_count = Option.none
        ∨ ∃ n : Int, ({ bvid := "BV1", title := "T", pic := "", owner := PyVal.none,
                        online_total := PyVal.none, online_count := Option.none,
                        view := Option.none, danmaku := Option.none,
                        pubdate := "ts:0" : EnrichedItem }).online_count = Option.some n) :=
  enriched_item_field_types
    { viewResult := Except.ok (PyVal.dict [("data", PyVal.dict [])]),
      onlineResult := Except.ok (PyVal.dict []) }
    [("bvid", PyVal.str "BV1"), ("title", PyVal.str "T")]
    { bvid := "BV1", title := "T", pic := "", owner := PyVal.none,
      online_total := PyVal.none, online_count := Option.none,
      view := Option.none, danmaku := Option.none, pubdate := "ts:0" } rfl

/-- C5 counterexample: when both the raw catalog entry and the detail
response supply a title and a cover image, the enriched item keeps the
RAW entry's title and pic, not the detail response's — the claimed
detail-first precedence fails for these two fields. -/
theorem title_and_pic_prefer_raw_entry :
    (enrich_video
        { viewResult := Except.ok (PyVal.dict [("data", PyVal.dict
            [("title", PyVal.str "B"), ("pic", PyVal.str "pdet")])]),
          onlineResult := Except.ok (PyVal.dict []) }
        [("bvid", PyVal.str "BV1"), ("title", PyVal.str "A"), ("pic", PyVal.str "praw")]).1
      = Except.ok { bvid := "BV1", title := "A", pic := "praw", owner := PyVal.none,
                    online_total := PyVal.none, online_count := Option.none,
                    view := Option.none, danmaku := Option.none, pubdate := "ts:0" }
    ∧ "A" ≠ "B" ∧ "praw" ≠ "pdet" :=
  ⟨rfl, by decide, by decide⟩

/-- C5 (amended): each field of a successfully enriched item is resolved
by a layered fallback, but the direction differs per field: owner, stat
(hence view and danmaku) and pubdate prefer the detail response and fall
back to the raw entry; title and pic prefer the raw entry and fall back
to the detail response; the synthesized defaults (placeholder title,
empty-string pic, epoch-zero pubdate) apply when neither source provides
a usable value. -/
theorem field_resolution_precedence (env : NetEnv) (d : PyDict) (it : EnrichedItem)
    (h : (enrich_video env d).1 = Except.ok it) :
    ∃ vr vd, env.viewResult = Except.ok vr ∧ resolve_view_data vr = PyVal.dict vd
      ∧ ((PyDict.get vd "owner").isDict = true → it.owner = PyDict.get vd "owner")
      ∧ ((PyDict.get vd "owner").isDict = false → it.owner = d.get "owner")
      ∧ ((PyDict.get vd "stat").isDict = true →
          it.view = stat_view (PyDict.get vd "stat")
          ∧ it.danmaku = stat_danmaku (PyDict.get vd "stat"))
      ∧ ((PyDict.get vd "stat").isDict = false →
          it.view = stat_view (d.get "stat") ∧ it.danmaku = stat_danmaku (d.get "stat"))
      ∧ (∀ n : Int, PyDict.get vd "pubdate" = PyVal.int n → it.pubdate = formatTimestamp n)
      ∧ (pyIsInstInt (PyDict.get vd "pubdate") = false →
          ∀ n : Int, d.get "pubdate" = PyVal.int n → it.pubdate = formatTimestamp n)
      ∧ (pyIsInstInt (PyDict.get vd "pubdate") = false →
          pyIsInstInt (d.get "pubdate") = false → it.pubdate = formatTimestamp 0)
      ∧ (∀ t, d.get "title" = PyVal.str t → it.title = t)
      ∧ ((d.get "title").isStr = false →
          ∀ t, PyDict.get vd "title" = PyVal.str t → it.title = t)
      ∧ ((d.get "title").isStr = false → (PyDict.get vd "title").isStr = false →
          it.title = "(untitled) " ++ it.bvid)
      ∧ (∀ p, p ≠ "" → d.get "pic" = PyVal.str p → it.pic = p)
      ∧ (((d.get "pic").isStr && (d.get "pic").truthy) = false →
          ∀ p, PyDict.get vd "pic" = PyVal.str p → it.pic = p)
      ∧ (((d.get "pic").isStr && (d.get "pic").truthy) = false →
          (PyDict.get vd "pic").isStr = false → it.pic = "") := by
  obtain ⟨b, vr, vd, hb, hbe, hv, hvd, hbv, ht, hp, how, hvw, hdk, hpd⟩ :=
    enrich_ok_shape env d it h
  refine ⟨vr, vd, hv, hvd, ?_, ?_, ?_, ?_, ?_, ?_, ?_, ?_, ?_, ?_, ?_, ?_, ?_⟩
  · intro hod
    rw [how]
    simp [resolve_owner, hod]
  · intro hod
    rw [how]
    simp [resolve_owner, hod]
  · intro hsd
    rw [hvw, hdk]
    simp [resolve_stat, hsd]
  · intro hsd
    rw [hvw, hdk]
    simp [resolve_stat, hsd]
  · intro n hn
    rw [hpd]
    simp [resolve_pubdate, hn, pyIsInstInt, pyToInt]
  · intro hnd n hn
    rw [hpd]
    simp only [resolve_pubdate, hnd, hn]
    simp [pyIsInstInt, pyToInt]
  · intro hnd hnr
    rw [hpd]
    cases hdp : d.get "pubdate" <;> simp_all [resolve_pubdate, pyIsInstInt]
  · intro t hts
    rw [ht]
    simp [resolve_title, hts, PyVal.isStr]
  · intro hnr t hts
    rw [ht]
    simp [resolve_title, hnr, hts]
  · intro hnr hnd
    rw [ht, hbv]
    unfold resolve_title
    rw [if_neg (by simp [hnr])]
    cases hdt : PyDict.get vd "title" <;> simp_all [PyVal.isStr]
  · intro p hpne hps
    rw [hp]
    simp [resolve_pic, hps, PyVal.isStr, PyVal.truthy, hpne]
  · intro hnr p hps
    rw [hp]
    simp [resolve_pic, hnr, hps]
  · intro hnr hnd
    rw [hp]
    simp only [resolve_pic]
    rw [if_neg (by simp [hnr])]
    cases hdp : PyDict.get vd "pic" <;> simp_all [PyVal.isStr]

/-- Witness for `field_resolution_precedence`: detail data supplies
owner, stat and pubdate; the raw entry supplies title and pic. -/
theorem field_resolution_precedence_witness :
    ∃ vr vd,
      ({ viewResult := Except.ok (PyVal.dict [("data", PyVal.dict
           [("title", PyVal.str "B"), ("pic", PyVal.str "pdet"),
            ("owner", PyVal.dict [("name", PyVal.str "U")]),
            ("stat", PyVal.dict [("view", PyVal.int 10)]),
            ("pubdate", PyVal.int 99)])]),
         onlineResult := Except.ok (PyVal.dict []) : NetEnv }).viewResult = Except.ok vr
      ∧ resolve_view_data vr = PyVal.dict vd
      ∧ ((PyDict.get vd "owner").isDict = true →
          ({ bvid := "BV1", title := "A", pic := "praw",
             owner := PyVal.dict [("name", PyVal.str "U")],
             online_total := PyVal.none, online_count := Option.none,
             view := Option.some 10, danmaku := Option.none,
             pubdate := "ts:99" : EnrichedItem }).owner = PyDict.get vd "owner")
      ∧ ((PyDict.get vd "owner").isDict = false →
          ({ bvid := "BV1", title := "A", pic := "praw",
             owner := PyVal.dict [("name", PyVal.str "U")],
             online_total := PyVal.none, online_count := Option.none,
             view := Option.some 10, danmaku := Option.none,
             pubdate := "ts:99" : EnrichedItem }).owner
            = PyDict.get
                [("bvid", PyVal.str "BV1"), ("title", PyVal.str "A"),
                 ("pic", PyVal.str "praw"), ("pubdate", PyVal.int 50)] "owner")
      ∧ ((PyDict.get vd "stat").isDict = true →
          ({ bvid := "BV1", title := "A", pic := "praw",
             owner := PyVal.dict [("name", PyVal.str "U")],
             online_total := PyVal.none, online_count := Option.none,
             view := Option.some 10, danmaku := Option.none,
             pubdate := "ts:99" : EnrichedItem }).view = stat_view (PyDict.get vd "stat")
          ∧ ({ bvid := "BV1", title := "A", pic := "praw",
               owner := PyVal.dict [("name", PyVal.str "U")],
               online_total := PyVal.none, online_count := Option.none,
               view := Option.some 10, danmaku := Option.none,
               pubdate := "ts:99" : EnrichedItem }).danmaku
              = stat_danmaku (PyDict.get vd "stat"))
      ∧ ((PyDict.get vd "stat").isDict = false →
          ({ bvid := "BV1", title := "A", pic := "praw",
             owner := PyVal.dict [("name", PyVal.str "U")],
             online_total := PyVal.none, online_count := Option.none,
             view := Option.some 10, danmaku := Option.none,
             pubdate := "ts:99" : EnrichedItem }).view
              = stat_view (PyDict.get
                  [("bvid", PyVal.str "BV1"), ("title", PyVal.str "A"),
                   ("pic", PyVal.str "praw"), ("pubdate", PyVal.int 50)] "stat")
          ∧ ({ bvid := "BV1", title := "A", pic := "praw",
               owner := PyVal.dict [("name", PyVal.str "U")],
               online_total := PyVal.none, online_count := Option.none,
               view := Option.some 10, danmaku := Option.none,
               pubdate := "ts:99" : EnrichedItem }).danmaku
              = stat_danmaku (PyDict.get
                  [("bvid", PyVal.str "BV1"), ("title", PyVal.str "A"),
                   ("pic", PyVal.str "praw"), ("pubdate", PyVal.int 50)] "stat"))
      ∧ (∀ n : Int, PyDict.get vd "pubdate" = PyVal.int n →
          ({ bvid := "BV1", title := "A", pic := "praw",
             owner := PyVal.dict [("name", PyVal.str "U")],
             online_total := PyVal.none, online_count := Option.none,
             view := Option.some 10, danmaku := Option.none,
             pubdate := "ts:99" : EnrichedItem }).pubdate = formatTimestamp n)
      ∧ (pyIsInstInt (PyDict.get vd "pubdate") = false →
          ∀ n : Int,
            PyDict.get
                [("bvid", PyVal.str "BV1"), ("title", PyVal.str "A"),
                 ("pic", PyVal.str "praw"), ("pubdate", PyVal.int 50)] "pubdate"
              = PyVal.int n →
            ({ bvid := "BV1", title := "A", pic := "praw",
               owner := PyVal.dict [("name", PyVal.str "U")],
               online_total := PyVal.none, online_count := Option.none,
               view := Option.some 10, danmaku := Option.none,
               pubdate := "ts:99" : EnrichedItem }).pubdate = formatTimestamp n)
      ∧ (pyIsInstInt (PyDict.get vd "pubdate") = false →
          pyIsInstInt (PyDict.get
              [("bvid", PyVal.str "BV1"), ("title", PyVal.str "A"),
               ("pic", PyVal.str "praw"), ("pubdate", PyVal.int 50)] "pubdate") = false →
          ({ bvid := "BV1", title := "A", pic := "praw",
             owner := PyVal.dict [("name", PyVal.str "U")],
             online_total := PyVal.none, online_count := Option.none,
             view := Option.some 10, danmaku := Option.none,
             pubdate := "ts:99" : EnrichedItem }).pubdate = formatTimestamp 0)
      ∧ (∀ t, PyDict.get
            [("bvid", PyVal.str "BV1"), ("title", PyVal.str "A"),
             ("pic", PyVal.str "praw"), ("pubdate", PyVal.int 50)] "title" = PyVal.str t →
          ({ bvid := "BV1", title := "A", pic := "praw",
             owner := PyVal.dict [("name", PyVal.str "U")],
             online_total := PyVal.none, online_count := Option.none,
             view := Option.some 10, danmaku := Option.none,
             pubdate := "ts:99" : EnrichedItem }).title = t)
      ∧ ((PyDict.get
            [("bvid", PyVal.str "BV1"), ("title", PyVal.str "A"),
             ("pic", PyVal.str "praw"), ("pubdate", PyVal.int 50)] "title").isStr = false →
          ∀ t, PyDict.get vd "title" = PyVal.str t →
          ({ bvid := "BV1", title := "A", pic := "praw",
             owner := PyVal.dict [("name", PyVal.str "U")],
             online_total := PyVal.none, online_count := Option.none,
             view := Option.some 10, danmaku := Option.none,
             pubdate := "ts:99" : EnrichedItem }).title = t)
      ∧ ((PyDict.get
            [("bvid", PyVal.str "BV1"), ("title", PyVal.str "A"),
             ("pic", PyVal.str "praw"), ("pubdate", PyVal.int 50)] "title").isStr = false →
          (PyDict.get vd "title").isStr = false →
          ({ bvid := "BV1", title := "A", pic := "praw",
             owner := PyVal.dict [("name", PyVal.str "U")],
             online_total := PyVal.none, online_count := Option.none,
             view := Option.some 10, danmaku := Option.none,
             pubdate := "ts:99" : EnrichedItem }).title
            = "(untitled) "
              ++ ({ bvid := "BV1", title := "A", pic := "praw",
                    owner := PyVal.dict [("name", PyVal.str "U")],
                    online_total := PyVal.none, online_count := Option.none,
                    view := Option.some 10, danmaku := Option.none,
                    pubdate := "ts:99" : EnrichedItem }).bvid)
      ∧ (∀ p, p ≠ "" →
          PyDict.get
              [("bvid", PyVal.str "BV1"), ("title", PyVal.str "A"),
               ("pic", PyVal.str "praw"), ("pubdate", PyVal.int 50)] "pic" = PyVal.str p →
          ({ bvid := "BV1", title := "A", pic := "praw",
             owner := PyVal.dict [("name", PyVal.str "U")],
             online_total := PyVal.none, online_count := Option.none,
             view := Option.some 10, danmaku := Option.none,
             pubdate := "ts:99" : EnrichedItem }).pic = p)
      ∧ (((PyDict.get
            [("bvid", PyVal.str "BV1"), ("title", PyVal.str "A"),
             ("pic", PyVal.str "praw"), ("pubdate", PyVal.int 50)] "pic").isStr
          && (PyDict.get
            [("bvid", PyVal.str "BV1"), ("title", PyVal.str "A"),
             ("pic", PyVal.str "praw"), ("pubdate", PyVal.int 50)] "pic").truthy) = false →
          ∀ p, PyDict.get vd "pic" = PyVal.str p →
          ({ bvid := "BV1", title := "A", pic := "praw",
             owner := PyVal.dict [("name", PyVal.str "U")],
             online_total := PyVal.none, online_count := Option.none,
             view := Option.some 10, danmaku := Option.none,
             pubdate := "ts:99" : EnrichedItem }).pic = p)
      ∧ (((PyDict.get
            [("bvid", PyVal.str "BV1"), ("title", PyVal.str "A"),
             ("pic", PyVal.str "praw"), ("pubdate", PyVal.int 50)] "pic").isStr
          && (PyDict.get
            [("bvid", PyVal.str "BV1"), ("title", PyVal.str "A"),
             ("pic", PyVal.str "praw"), ("pubdate", PyVal.int 50)] "pic").truthy) = false →
          (PyDict.get vd "pic").isStr = false →
          ({ bvid := "BV1", title := "A", pic := "praw",
             owner := PyVal.dict [("name", PyVal.str "U")],
             online_total := PyVal.none, online_count := Option.none,
             view := Option.some 10, danmaku := Option.none,
             pubdate := "ts:99" : EnrichedItem }).pic = "") :=
  field_resolution_precedence
    { viewResult := Except.ok (PyVal.dict [("data", PyVal.dict
        [("title", PyVal.str "B"), ("pic", PyVal.str "pdet"),
         ("owner", PyVal.dict [("name", PyVal.str "U")]),
         ("stat", PyVal.dict [("view", PyVal.int 10)]),
         ("pubdate", PyVal.int 99)])]),
      onlineResult := Except.ok (PyVal.dict []) }
    [("bvid", PyVal.str "BV1"), ("title", PyVal.str "A"),
     ("pic", PyVal.str "praw"), ("pubdate", PyVal.int 50)]
    { bvid := "BV1", title := "A", pic := "praw",
      owner := PyVal.dict [("name", PyVal.str "U")],
      online_total := PyVal.none, online_count := Option.none,
      view := Option.some 10, danmaku := Option.none, pubdate := "ts:99" } rfl

/-- C7: when the online-count endpoint answers with a non-success status
code in its body, enrichment does not fail: the item is produced with
`online_total` and `online_count` null while keeping the title, view and
danmaku taken from the detail call, and the item appears in the snapshot
wherever the entry sat in the catalog. -/
theorem online_nonsuccess_not_fatal (d vd od sd : PyDict) (bvid t : String) (c : Int)
    (hb : d.get "bvid" = PyVal.str bvid) (hbe : bvid ≠ "")
    (htr : (d.get "title").isStr = false)
    (htd : PyDict.get vd "title" = PyVal.str t)
    (hst : PyDict.get vd "stat" = PyVal.dict sd)
    (hcid : safe_int (PyDict.get vd "cid") = Option.some c) (hc : c ≠ 0)
    (hcode : pyEqZero (PyDict.get od "code") = false) :
    ∃ it,
      (enrich_video
          { viewResult := Except.ok (PyVal.dict [("data", PyVal.dict vd)]),
            onlineResult := Except.ok (PyVal.dict od) } d).1 = Except.ok it
      ∧ it.online_total = PyVal.none
      ∧ it.online_count = Option.none
      ∧ it.title = t
      ∧ it.view = safe_int (PyDict.get sd "view")
      ∧ it.danmaku = safe_int (PyDict.get sd "danmaku")
      ∧ ∀ pre post,
          it ∈ build_payload_items
            (pre ++ ({ viewResult := Except.ok (PyVal.dict [("data", PyVal.dict vd)]),
                       onlineResult := Except.ok (PyVal.dict od) }, PyVal.dict d) :: post) := by
  have hvd : resolve_view_data (PyVal.dict [("data", PyVal.dict vd)]) = PyVal.dict vd := by
    cases vd with
    | nil => rfl
    | cons a l => rfl
  have henr :
      (enrich_video
          { viewResult := Except.ok (PyVal.dict [("data", PyVal.dict vd)]),
            onlineResult := Except.ok (PyVal.dict od) } d).1
        = Except.ok
            { bvid := bvid, title := resolve_title d vd bvid, pic := resolve_pic d vd,
              owner := resolve_owner d vd, online_total := PyVal.none,
              online_count := Option.none, view := stat_view (resolve_stat d vd),
              danmaku := stat_danmaku (resolve_stat d vd),
              pubdate := formatTimestamp (resolve_pubdate d vd) } := by
    unfold enrich_video
    rw [hb]
    try dsimp only
    rw [if_neg hbe]
    try dsimp only
    rw [hvd]
    try dsimp only
    rw [hcid]
    try dsimp only
    rw [if_pos hc]
    try dsimp only
    rw [if_neg (by simp [hcode])]
  refine ⟨_, henr, rfl, rfl, ?_, ?_, ?_,
    fun pre post => build_payload_items_keep _ d _ pre post henr⟩
  · simp [resolve_title, htr, htd]
  · simp [resolve_stat, hst, stat_view, PyVal.isDict]
  · simp [resolve_stat, hst, stat_danmaku, PyVal.isDict]

/-- Witness for `online_nonsuccess_not_fatal`: the online endpoint
answers with body code -404. -/
theorem online_nonsuccess_not_fatal_witness :
    ∃ it,
      (enrich_video
          { viewResult := Except.ok (PyVal.dict [("data", PyVal.dict
              [("cid", PyVal.int 7), ("title", PyVal.str "T"),
               ("stat", PyVal.dict [("view", PyVal.int 10), ("danmaku", PyVal.int 2)])])]),
            onlineResult := Except.ok (PyVal.dict [("code", PyVal.int (-404))]) }
          [("bvid", PyVal.str "BV1")]).1 = Except.ok it
      ∧ it.online_total = PyVal.none
      ∧ it.online_count = Option.none
      ∧ it.title = "T"
      ∧ it.view = safe_int (PyDict.get
          [("view", PyVal.int 10), ("danmaku", PyVal.int 2)] "view")
      ∧ it.danmaku = safe_int (PyDict.get
          [("view", PyVal.int 10), ("danmaku", PyVal.int 2)] "danmaku")
      ∧ ∀ pre post,
          it ∈ build_payload_items
            (pre ++ ({ viewResult := Except.ok (PyVal.dict [("data", PyVal.dict
                        [("cid", PyVal.int 7), ("title", PyVal.str "T"),
                         ("stat", PyVal.dict
                           [("view", PyVal.int 10), ("danmaku", PyVal.int 2)])])]),
                       onlineResult := Except.ok (PyVal.dict [("code", PyVal.int (-404))]) },
                     PyVal.dict [("bvid", PyVal.str "BV1")]) :: post) :=
  online_nonsuccess_not_fatal
    [("bvid", PyVal.str "BV1")]
    [("cid", PyVal.int 7), ("title", PyVal.str "T"),
     ("stat", PyVal.dict [("view", PyVal.int 10), ("danmaku", PyVal.int 2)])]
    [("code", PyVal.int (-404))]
    [("view", PyVal.int 10), ("danmaku", PyVal.int 2)]
    "BV1" "T" 7 rfl (by decide) rfl rfl rfl rfl (by decide) (by decide)
